import Mathlib

/-!
Shallow embedding of the delayconn decorators (package delayconn):
the files delayconn.go and onebytewriter.go, together with the
OneByteReader adapter from testing/iotest that delayconn.go imports.

Modelling conventions:
  - A connection (Go net.Conn) is a record of pure response functions.
    Read is keyed by the length of the destination buffer (only the
    length influences the calls made here); Write takes the byte list.
    Errors, addresses and deadline times are abstract type parameters.
  - A Go (n int, err error) result is a pair Nat x Option e, none = nil.
  - Methods guarded by a possible time.Sleep call return the result
    paired with the number of Sleep calls performed (0 or 1).
  - The fragmenting writer returns, next to its result, the list of
    buffers it passed downstream, one entry per delegated Write call.
  - A nil Go interface field is modelled as none; invoking a method
    through it panics in Go, modelled by an Option-valued result that
    is none exactly when the receiver interface is nil.
-/

variable {e a t s : Type}

/-- Capability contract of the wrapped connection (Go net.Conn as used
by this package): read, write, close, the two address accessors and the
three deadline setters, each as a pure response function. -/
structure NetConn (e a t : Type) where
  read : Nat → Nat × Option e
  write : List Nat → Nat × Option e
  close : Option e
  localAddr : a
  remoteAddr : a
  setDeadline : t → Option e
  setReadDeadline : t → Option e
  setWriteDeadline : t → Option e

/-- onebytewriter.go: oneByteWriter holds the wrapped io.Writer, here
its pure response function. -/
structure oneByteWriter (e : Type) where
  w : List Nat → Nat × Option e

/-- OneByteWriter (onebytewriter.go) wraps a writer. -/
def OneByteWriter (w : List Nat → Nat × Option e) : oneByteWriter e :=
  { w := w }

/-- oneByteWriter.Write (onebytewriter.go): if len(p) == 0 it returns
(0, nil) at once; otherwise it delegates w.w.Write(p[0:1]) and returns
that call's result. The second component lists the buffers passed
downstream, one per delegated call. -/
def oneByteWriter.Write (ob : oneByteWriter e) (p : List Nat) :
    (Nat × Option e) × List (List Nat) :=
  if p.length = 0 then ((0, none), [])
  else (ob.w (p.take 1), [p.take 1])

/-- OneByteWriteConn (delayconn.go): wrapped conn plus the io.Writer
field w, which the constructor always sets to OneByteWriter(conn). -/
structure OneByteWriteConn (e a t : Type) where
  w : oneByteWriter e
  conn : NetConn e a t

/-- NewOneByteWriteConn (delayconn.go): sets both fields. -/
def NewOneByteWriteConn (conn : NetConn e a t) : OneByteWriteConn e a t :=
  { conn := conn, w := OneByteWriter conn.write }

def OneByteWriteConn.Read (rc : OneByteWriteConn e a t) (len : Nat) :
    Nat × Option e :=
  rc.conn.read len

def OneByteWriteConn.Write (rc : OneByteWriteConn e a t) (b : List Nat) :
    (Nat × Option e) × List (List Nat) :=
  rc.w.Write b

def OneByteWriteConn.Close (rc : OneByteWriteConn e a t) : Option e :=
  rc.conn.close

def OneByteWriteConn.LocalAddr (rc : OneByteWriteConn e a t) : a :=
  rc.conn.localAddr

def OneByteWriteConn.RemoteAddr (rc : OneByteWriteConn e a t) : a :=
  rc.conn.remoteAddr

def OneByteWriteConn.SetDeadline (rc : OneByteWriteConn e a t) (tm : t) :
    Option e :=
  rc.conn.setDeadline tm

def OneByteWriteConn.SetWriteDeadline (rc : OneByteWriteConn e a t) (tm : t) :
    Option e :=
  rc.conn.setWriteDeadline tm

def OneByteWriteConn.SetReadDeadline (rc : OneByteWriteConn e a t) (tm : t) :
    Option e :=
  rc.conn.setReadDeadline tm

/-- OneByteReadConn (delayconn.go): reader is the io.Reader field, conn
the net.Conn field. The conn field is an Option because the Go zero
value of an interface field is nil, modelled as none. -/
structure OneByteReadConn (e a t : Type) where
  reader : Nat → Nat × Option e
  conn : Option (NetConn e a t)

/-- testing/iotest.OneByteReader: if len(p) == 0 it returns (0, nil),
otherwise it delegates r.Read(p[0:1]), i.e. a read of length one. -/
def iotestOneByteReader (r : Nat → Nat × Option e) : Nat → Nat × Option e :=
  fun len => if len = 0 then (0, none) else r 1

/-- NewOneByteReadConn (delayconn.go lines 171-175): assigns only the
reader field; the conn field is never assigned and keeps the Go zero
value nil, modelled as none. -/
def NewOneByteReadConn (conn : NetConn e a t) : OneByteReadConn e a t :=
  { reader := iotestOneByteReader conn.read, conn := none }

def OneByteReadConn.Read (rc : OneByteReadConn e a t) (len : Nat) :
    Nat × Option e :=
  rc.reader len

/-- OneByteReadConn.Write delegates rc.conn.Write(b); through a nil conn
interface the call panics, modelled by the none result. -/
def OneByteReadConn.Write (rc : OneByteReadConn e a t) (b : List Nat) :
    Option (Nat × Option e) :=
  rc.conn.map fun c => c.write b

def OneByteReadConn.Close (rc : OneByteReadConn e a t) : Option (Option e) :=
  rc.conn.map fun c => c.close

def OneByteReadConn.LocalAddr (rc : OneByteReadConn e a t) : Option a :=
  rc.conn.map fun c => c.localAddr

def OneByteReadConn.RemoteAddr (rc : OneByteReadConn e a t) : Option a :=
  rc.conn.map fun c => c.remoteAddr

def OneByteReadConn.SetDeadline (rc : OneByteReadConn e a t) (tm : t) :
    Option (Option e) :=
  rc.conn.map fun c => c.setDeadline tm

def OneByteReadConn.SetReadDeadline (rc : OneByteReadConn e a t) (tm : t) :
    Option (Option e) :=
  rc.conn.map fun c => c.setReadDeadline tm

def OneByteReadConn.SetWriteDeadline (rc : OneByteReadConn e a t) (tm : t) :
    Option (Option e) :=
  rc.conn.map fun c => c.setWriteDeadline tm

/-- ReadDelayConn (delayconn.go): a fixed delay (time.Duration, an
int64 count of nanoseconds, modelled as Int) and the wrapped conn. -/
structure ReadDelayConn (e a t : Type) where
  delay : Int
  conn : NetConn e a t

/-- NewReadDelayConn (delayconn.go). -/
def NewReadDelayConn (delay : Int) (conn : NetConn e a t) :
    ReadDelayConn e a t :=
  { delay := delay, conn := conn }

/-- ReadDelayConn.Read: if rc.delay > 0 it sleeps rc.delay, then
delegates rc.conn.Read(b). The Nat component counts Sleep calls. -/
def ReadDelayConn.Read (rc : ReadDelayConn e a t) (len : Nat) :
    (Nat × Option e) × Nat :=
  if rc.delay > 0 then (rc.conn.read len, 1) else (rc.conn.read len, 0)

def ReadDelayConn.Write (rc : ReadDelayConn e a t) (b : List Nat) :
    (Nat × Option e) × Nat :=
  (rc.conn.write b, 0)

def ReadDelayConn.Close (rc : ReadDelayConn e a t) : Option e × Nat :=
  (rc.conn.close, 0)

def ReadDelayConn.LocalAddr (rc : ReadDelayConn e a t) : a :=
  rc.conn.localAddr

def ReadDelayConn.RemoteAddr (rc : ReadDelayConn e a t) : a :=
  rc.conn.remoteAddr

def ReadDelayConn.SetDeadline (rc : ReadDelayConn e a t) (tm : t) :
    Option e × Nat :=
  (rc.conn.setDeadline tm, 0)

def ReadDelayConn.SetReadDeadline (rc : ReadDelayConn e a t) (tm : t) :
    Option e × Nat :=
  (rc.conn.setReadDeadline tm, 0)

def ReadDelayConn.SetWriteDeadline (rc : ReadDelayConn e a t) (tm : t) :
    Option e × Nat :=
  (rc.conn.setWriteDeadline tm, 0)

/-- WriteDelayConn (delayconn.go): delay before Write only. -/
structure WriteDelayConn (e a t : Type) where
  delay : Int
  conn : NetConn e a t

/-- NewWriteDelayConn (delayconn.go). -/
def NewWriteDelayConn (delay : Int) (conn : NetConn e a t) :
    WriteDelayConn e a t :=
  { delay := delay, conn := conn }

def WriteDelayConn.Read (rc : WriteDelayConn e a t) (len : Nat) :
    (Nat × Option e) × Nat :=
  (rc.conn.read len, 0)

/-- WriteDelayConn.Write: if rc.delay > 0 it sleeps rc.delay, then
delegates rc.conn.Write(b). -/
def WriteDelayConn.Write (rc : WriteDelayConn e a t) (b : List Nat) :
    (Nat × Option e) × Nat :=
  if rc.delay > 0 then (rc.conn.write b, 1) else (rc.conn.write b, 0)

def WriteDelayConn.Close (rc : WriteDelayConn e a t) : Option e × Nat :=
  (rc.conn.close, 0)

def WriteDelayConn.LocalAddr (rc : WriteDelayConn e a t) : a :=
  rc.conn.localAddr

def WriteDelayConn.RemoteAddr (rc : WriteDelayConn e a t) : a :=
  rc.conn.remoteAddr

def WriteDelayConn.SetDeadline (rc : WriteDelayConn e a t) (tm : t) :
    Option e × Nat :=
  (rc.conn.setDeadline tm, 0)

def WriteDelayConn.SetReadDeadline (rc : WriteDelayConn e a t) (tm : t) :
    Option e × Nat :=
  (rc.conn.setReadDeadline tm, 0)

def WriteDelayConn.SetWriteDeadline (rc : WriteDelayConn e a t) (tm : t) :
    Option e × Nat :=
  (rc.conn.setWriteDeadline tm, 0)

/-- DelayConn (delayconn.go): delay before both Read and Write. -/
structure DelayConn (e a t : Type) where
  delay : Int
  conn : NetConn e a t

/-- NewDelayConn (delayconn.go). -/
def NewDelayConn (delay : Int) (conn : NetConn e a t) : DelayConn e a t :=
  { delay := delay, conn := conn }

def DelayConn.Read (rc : DelayConn e a t) (len : Nat) :
    (Nat × Option e) × Nat :=
  if rc.delay > 0 then (rc.conn.read len, 1) else (rc.conn.read len, 0)

def DelayConn.Write (rc : DelayConn e a t) (b : List Nat) :
    (Nat × Option e) × Nat :=
  if rc.delay > 0 then (rc.conn.write b, 1) else (rc.conn.write b, 0)

def DelayConn.Close (rc : DelayConn e a t) : Option e × Nat :=
  (rc.conn.close, 0)

def DelayConn.LocalAddr (rc : DelayConn e a t) : a :=
  rc.conn.localAddr

def DelayConn.RemoteAddr (rc : DelayConn e a t) : a :=
  rc.conn.remoteAddr

def DelayConn.SetDeadline (rc : DelayConn e a t) (tm : t) : Option e × Nat :=
  (rc.conn.setDeadline tm, 0)

def DelayConn.SetReadDeadline (rc : DelayConn e a t) (tm : t) :
    Option e × Nat :=
  (rc.conn.setReadDeadline tm, 0)

def DelayConn.SetWriteDeadline (rc : DelayConn e a t) (tm : t) :
    Option e × Nat :=
  (rc.conn.setWriteDeadline tm, 0)

/-- Modelled from the spec: the PerWriteDelayConn implementation is not
among the provided sources (only its test TestPerWriteDelayConn calls
NewPerWriteDelayConn). Per the spec it holds a fixed non-negative
duration D and one wrapped connection; since its Write makes a sequence
of delegated calls, the wrapped connection's write is a stateful
response function threading a state of type s. -/
structure PerWriteDelayConn (e s : Type) where
  delay : Int
  write : s → List Nat → (Nat × Option e) × s

/-- Modelled from the spec: NewPerWriteDelayConn(duration, conn). -/
def NewPerWriteDelayConn (delay : Int)
    (write : s → List Nat → (Nat × Option e) × s) : PerWriteDelayConn e s :=
  { delay := delay, write := write }

/-- Outcome of a PerWriteDelayConn write call: accumulated byte count,
final error, final state of the wrapped writer, number of Sleep calls
performed, and the list of buffers passed to delegated write calls. -/
structure PerWriteResult (e s : Type) where
  n : Nat
  err : Option e
  state : s
  sleeps : Nat
  calls : List (List Nat)
  deriving DecidableEq

/-- Modelled from the spec: the loop of PerWriteDelayConn.Write. For
each byte of the buffer in order it sleeps the delay when positive,
delegates a one-byte write of that byte, adds the reported count to the
accumulator, and on any failing attempt returns immediately with the
bytes accumulated so far and that error. -/
def perWriteLoop (d : Int) (w : s → List Nat → (Nat × Option e) × s) :
    s → List Nat → PerWriteResult e s
  | st, [] => { n := 0, err := none, state := st, sleeps := 0, calls := [] }
  | st, x :: rest =>
    match w st [x] with
    | ((m, some er), st2) =>
      { n := m, err := some er, state := st2,
        sleeps := if d > 0 then 1 else 0, calls := [[x]] }
    | ((m, none), st2) =>
      let tail := perWriteLoop d w st2 rest
      { n := m + tail.n, err := tail.err, state := tail.state,
        sleeps := (if d > 0 then 1 else 0) + tail.sleeps,
        calls := [x] :: tail.calls }

/-- Modelled from the spec: PerWriteDelayConn.Write(buffer) performs one
sequential delegated one-byte write attempt per byte of the buffer, each
preceded by a sleep of D when D > 0, accumulates the total bytes
written, and on any failing attempt returns immediately with the bytes
accumulated so far and that error. -/
def PerWriteDelayConn.Write (rc : PerWriteDelayConn e s) (st : s)
    (b : List Nat) : PerWriteResult e s :=
  perWriteLoop rc.delay rc.write st b

/-- Every one-byte write attempt along the run of the given stateful
writer over the byte list returns exactly (1, nil). -/
def allOneOk [DecidableEq e] (w : s → List Nat → (Nat × Option e) × s) :
    s → List Nat → Bool
  | _, [] => true
  | st, x :: rest =>
    decide ((w st [x]).1 = ((1 : Nat), (none : Option e)))
      && allOneOk w (w st [x]).2 rest

/-- The writer state reached after the one-byte write attempts for the
given byte list. -/
def stateAfter (w : s → List Nat → (Nat × Option e) × s) :
    s → List Nat → s
  | st, [] => st
  | st, x :: rest => stateAfter w (w st [x]).2 rest

/-- A concrete well-behaved connection for witnesses: reads deliver at
most one byte, writes consume the whole buffer, every control operation
succeeds. -/
def sampleConn : NetConn Nat Nat Nat where
  read := fun len => (min 1 len, none)
  write := fun p => (p.length, none)
  close := none
  localAddr := 0
  remoteAddr := 1
  setDeadline := fun _ => none
  setReadDeadline := fun _ => none
  setWriteDeadline := fun _ => none

/-- A concrete stateful writer that accepts every one-byte write and
counts the calls in its state. -/
def sampleWriter : Nat → List Nat → (Nat × Option Nat) × Nat :=
  fun st p => ((min 1 p.length, none), st + 1)

/-- A concrete stateful writer that accepts the first one-byte write
and fails every later attempt with error 7. -/
def failingWriter : Nat → List Nat → (Nat × Option Nat) × Nat :=
  fun st p =>
    if st < 1 then ((min 1 p.length, none), st + 1) else ((0, some 7), st)

/-!  Theorems settling the claims. -/

/-- C1: the claim states that every operation of a OneByteReadConn built
by NewOneByteReadConn other than Read is forwarded unchanged to the
wrapped connection. The code violates this: NewOneByteReadConn never
assigns the conn field, so it keeps the nil zero value and every
forwarded operation dereferences a nil interface (a panic, modelled as
none) instead of returning the wrapped connection's result. -/
theorem newOneByteReadConn_forwarding_hits_nil_conn
    (conn : NetConn e a t) (b : List Nat) (tm : t) :
    (NewOneByteReadConn conn).conn = none ∧
    (NewOneByteReadConn conn).Write b = none ∧
    (NewOneByteReadConn conn).Close = none ∧
    (NewOneByteReadConn conn).LocalAddr = none ∧
    (NewOneByteReadConn conn).RemoteAddr = none ∧
    (NewOneByteReadConn conn).SetDeadline tm = none ∧
    (NewOneByteReadConn conn).SetReadDeadline tm = none ∧
    (NewOneByteReadConn conn).SetWriteDeadline tm = none :=
  ⟨rfl, rfl, rfl, rfl, rfl, rfl, rfl, rfl⟩

/-- C4: every Fragmenting Writer returns (0, nil) on an empty buffer
and performs no delegated call on the wrapped writer. -/
theorem oneByteWriter_write_empty (ob : oneByteWriter e) :
    ob.Write [] = ((0, none), []) := rfl

/-- C7: for each delay wrapper constructed with duration 0, the delayed
operation performs no sleep call and delegates directly to the wrapped
connection, returning its result unchanged. -/
theorem delay_wrappers_zero_delay_no_sleep (conn : NetConn e a t)
    (len : Nat) (b : List Nat) :
    (NewReadDelayConn 0 conn).Read len = (conn.read len, 0) ∧
    (NewWriteDelayConn 0 conn).Write b = (conn.write b, 0) ∧
    (NewDelayConn 0 conn).Read len = (conn.read len, 0) ∧
    (NewDelayConn 0 conn).Write b = (conn.write b, 0) := by
  refine ⟨?_, ?_, ?_, ?_⟩ <;>
    simp [NewReadDelayConn, ReadDelayConn.Read, NewWriteDelayConn,
      WriteDelayConn.Write, NewDelayConn, DelayConn.Read, DelayConn.Write]

/-- C8: the per-operation delay wrappers alter only their target
operation. For every duration, buffer and deadline time, a Read-Delay
wrapper's write, close, address accessors and deadline setters return
exactly the wrapped connection's result with no sleep, and a
Write-Delay wrapper's read and all non-write operations likewise pass
through unchanged. -/
theorem delay_wrappers_frame (d : Int) (conn : NetConn e a t)
    (len : Nat) (b : List Nat) (tm : t) :
    (NewReadDelayConn d conn).Write b = (conn.write b, 0) ∧
    (NewReadDelayConn d conn).Close = (conn.close, 0) ∧
    (NewReadDelayConn d conn).LocalAddr = conn.localAddr ∧
    (NewReadDelayConn d conn).RemoteAddr = conn.remoteAddr ∧
    (NewReadDelayConn d conn).SetDeadline tm = (conn.setDeadline tm, 0) ∧
    (NewReadDelayConn d conn).SetReadDeadline tm
      = (conn.setReadDeadline tm, 0) ∧
    (NewReadDelayConn d conn).SetWriteDeadline tm
      = (conn.setWriteDeadline tm, 0) ∧
    (NewWriteDelayConn d conn).Read len = (conn.read len, 0) ∧
    (NewWriteDelayConn d conn).Close = (conn.close, 0) ∧
    (NewWriteDelayConn d conn).LocalAddr = conn.localAddr ∧
    (NewWriteDelayConn d conn).RemoteAddr = conn.remoteAddr ∧
    (NewWriteDelayConn d conn).SetDeadline tm = (conn.setDeadline tm, 0) ∧
    (NewWriteDelayConn d conn).SetReadDeadline tm
      = (conn.setReadDeadline tm, 0) ∧
    (NewWriteDelayConn d conn).SetWriteDeadline tm
      = (conn.setWriteDeadline tm, 0) :=
  ⟨rfl, rfl, rfl, rfl, rfl, rfl, rfl, rfl, rfl, rfl, rfl, rfl, rfl, rfl⟩

/-- C6: a Single-Byte-Read-wrapped read on a non-empty destination
buffer, over a wrapped connection with at least one byte available
(its one-byte read returns (1, nil)), returns (1, nil), and the count
is never more than 1 regardless of the buffer's length. -/
theorem oneByteReadConn_read_one (conn : NetConn e a t) (len : Nat)
    (hlen : len ≠ 0) (havail : conn.read 1 = (1, none)) :
    (NewOneByteReadConn conn).Read len = (1, none) ∧
    ((NewOneByteReadConn conn).Read len).1 ≤ 1 := by
  simp [NewOneByteReadConn, OneByteReadConn.Read, iotestOneByteReader,
    hlen, havail]

/-- Witness for C6 at a concrete connection and buffer length 1024. -/
theorem oneByteReadConn_read_one_witness :
    (1024 ≠ 0 ∧ sampleConn.read 1 = (1, none)) ∧
    ((NewOneByteReadConn sampleConn).Read 1024 = (1, none) ∧
      ((NewOneByteReadConn sampleConn).Read 1024).1 ≤ 1) :=
  ⟨⟨by decide, by decide⟩,
    oneByteReadConn_read_one sampleConn 1024 (by decide) (by decide)⟩

/-- C5: on a non-empty buffer, a Single-Byte-Write-wrapped write (and
the Fragmenting Writer it delegates to) issues exactly one downstream
write attempt passing only the first byte, and returns exactly what
that downstream call returns; when the downstream writer observes the
standard writer contract on that one-byte call (count at most 1, and
count 1 whenever the error is nil), a successful result is (1, nil)
and the count is never more than 1, whatever the buffer's length. -/
theorem oneByteWriteConn_write_first_byte (conn : NetConn e a t)
    (p : List Nat) (hp : p ≠ [])
    (hle : (conn.write (p.take 1)).1 ≤ 1)
    (hok : (conn.write (p.take 1)).2 = none →
      (conn.write (p.take 1)).1 = 1) :
    (NewOneByteWriteConn conn).Write p
      = (OneByteWriter conn.write).Write p ∧
    ((NewOneByteWriteConn conn).Write p).2 = [p.take 1] ∧
    ((NewOneByteWriteConn conn).Write p).1 = conn.write (p.take 1) ∧
    (((NewOneByteWriteConn conn).Write p).1.2 = none →
      ((NewOneByteWriteConn conn).Write p).1 = (1, none)) ∧
    ((NewOneByteWriteConn conn).Write p).1.1 ≤ 1 := by
  have hlen : ¬ p.length = 0 := by simpa [List.length_eq_zero] using hp
  refine ⟨rfl, ?_, ?_, ?_, ?_⟩
  · simp [NewOneByteWriteConn, OneByteWriteConn.Write, OneByteWriter,
      oneByteWriter.Write, hlen]
  · simp [NewOneByteWriteConn, OneByteWriteConn.Write, OneByteWriter,
      oneByteWriter.Write, hlen]
  · intro h2
    simp only [NewOneByteWriteConn, OneByteWriteConn.Write, OneByteWriter,
      oneByteWriter.Write, if_neg hlen] at h2 ⊢
    exact Prod.ext_iff.mpr ⟨hok h2, h2⟩
  · simp only [NewOneByteWriteConn, OneByteWriteConn.Write, OneByteWriter,
      oneByteWriter.Write, if_neg hlen]
    exact hle

/-- Witness for C5 at a concrete connection and the buffer [3, 4, 5]. -/
theorem oneByteWriteConn_write_first_byte_witness :
    (([3, 4, 5] : List Nat) ≠ [] ∧
      (sampleConn.write (([3, 4, 5] : List Nat).take 1)).1 ≤ 1 ∧
      ((sampleConn.write (([3, 4, 5] : List Nat).take 1)).2 = none →
        (sampleConn.write (([3, 4, 5] : List Nat).take 1)).1 = 1)) ∧
    ((NewOneByteWriteConn sampleConn).Write [3, 4, 5]
        = (OneByteWriter sampleConn.write).Write [3, 4, 5] ∧
      ((NewOneByteWriteConn sampleConn).Write [3, 4, 5]).2 = [[3]] ∧
      ((NewOneByteWriteConn sampleConn).Write [3, 4, 5]).1
        = sampleConn.write (([3, 4, 5] : List Nat).take 1) ∧
      (((NewOneByteWriteConn sampleConn).Write [3, 4, 5]).1.2 = none →
        ((NewOneByteWriteConn sampleConn).Write [3, 4, 5]).1 = (1, none)) ∧
      ((NewOneByteWriteConn sampleConn).Write [3, 4, 5]).1.1 ≤ 1) :=
  ⟨⟨by decide, by decide, by decide⟩,
    oneByteWriteConn_write_first_byte sampleConn [3, 4, 5] (by decide)
      (by decide) (by decide)⟩

/-- C9: no wrapper introduces a new error kind: for every wrapper and
every operation, the error component of the wrapper's result is exactly
the error of the delegated call it makes (and nil when, on an empty
buffer, no call is delegated), with no retry, suppression or wrapping.
For the OneByteReadConn methods that forward through the conn field,
the pass-through is stated on a receiver whose conn field is set. -/
theorem wrappers_error_passthrough (d : Int) (conn : NetConn e a t)
    (w : List Nat → Nat × Option e) (r : Nat → Nat × Option e)
    (p b : List Nat) (len : Nat) (tm : t) :
    ((OneByteWriter w).Write p).1.2
      = (if p.length = 0 then none else (w (p.take 1)).2) ∧
    (NewOneByteWriteConn conn).Read len = conn.read len ∧
    ((NewOneByteWriteConn conn).Write p).1.2
      = (if p.length = 0 then none else (conn.write (p.take 1)).2) ∧
    (NewOneByteWriteConn conn).Close = conn.close ∧
    (NewOneByteWriteConn conn).SetDeadline tm = conn.setDeadline tm ∧
    (NewOneByteWriteConn conn).SetReadDeadline tm
      = conn.setReadDeadline tm ∧
    (NewOneByteWriteConn conn).SetWriteDeadline tm
      = conn.setWriteDeadline tm ∧
    ((NewOneByteReadConn conn).Read len).2
      = (if len = 0 then none else (conn.read 1).2) ∧
    (OneByteReadConn.mk r (some conn)).Write b = some (conn.write b) ∧
    (OneByteReadConn.mk r (some conn)).Close = some conn.close ∧
    (OneByteReadConn.mk r (some conn)).SetDeadline tm
      = some (conn.setDeadline tm) ∧
    (OneByteReadConn.mk r (some conn)).SetReadDeadline tm
      = some (conn.setReadDeadline tm) ∧
    (OneByteReadConn.mk r (some conn)).SetWriteDeadline tm
      = some (conn.setWriteDeadline tm) ∧
    ((NewReadDelayConn d conn).Read len).1 = conn.read len ∧
    ((NewReadDelayConn d conn).Write b).1 = conn.write b ∧
    ((NewReadDelayConn d conn).Close).1 = conn.close ∧
    ((NewReadDelayConn d conn).SetDeadline tm).1 = conn.setDeadline tm ∧
    ((NewReadDelayConn d conn).SetReadDeadline tm).1
      = conn.setReadDeadline tm ∧
    ((NewReadDelayConn d conn).SetWriteDeadline tm).1
      = conn.setWriteDeadline tm ∧
    ((NewWriteDelayConn d conn).Read len).1 = conn.read len ∧
    ((NewWriteDelayConn d conn).Write b).1 = conn.write b ∧
    ((NewWriteDelayConn d conn).Close).1 = conn.close ∧
    ((NewWriteDelayConn d conn).SetDeadline tm).1 = conn.setDeadline tm ∧
    ((NewWriteDelayConn d conn).SetReadDeadline tm).1
      = conn.setReadDeadline tm ∧
    ((NewWriteDelayConn d conn).SetWriteDeadline tm).1
      = conn.setWriteDeadline tm ∧
    ((NewDelayConn d conn).Read len).1 = conn.read len ∧
    ((NewDelayConn d conn).Write b).1 = conn.write b ∧
    ((NewDelayConn d conn).Close).1 = conn.close ∧
    ((NewDelayConn d conn).SetDeadline tm).1 = conn.setDeadline tm ∧
    ((NewDelayConn d conn).SetReadDeadline tm).1
      = conn.setReadDeadline tm ∧
    ((NewDelayConn d conn).SetWriteDeadline tm).1
      = conn.setWriteDeadline tm := by
  repeat' apply And.intro
  all_goals
    simp [OneByteWriter, oneByteWriter.Write, NewOneByteWriteConn,
      OneByteWriteConn.Read, OneByteWriteConn.Write, OneByteWriteConn.Close,
      OneByteWriteConn.SetDeadline, OneByteWriteConn.SetReadDeadline,
      OneByteWriteConn.SetWriteDeadline, NewOneByteReadConn,
      OneByteReadConn.Read, iotestOneByteReader, OneByteReadConn.Write,
      OneByteReadConn.Close, OneByteReadConn.SetDeadline,
      OneByteReadConn.SetReadDeadline, OneByteReadConn.SetWriteDeadline,
      NewReadDelayConn, ReadDelayConn.Read, ReadDelayConn.Write,
      ReadDelayConn.Close, ReadDelayConn.SetDeadline,
      ReadDelayConn.SetReadDeadline, ReadDelayConn.SetWriteDeadline,
      NewWriteDelayConn, WriteDelayConn.Read, WriteDelayConn.Write,
      WriteDelayConn.Close, WriteDelayConn.SetDeadline,
      WriteDelayConn.SetReadDeadline, WriteDelayConn.SetWriteDeadline,
      NewDelayConn, DelayConn.Read, DelayConn.Write, DelayConn.Close,
      DelayConn.SetDeadline, DelayConn.SetReadDeadline,
      DelayConn.SetWriteDeadline, apply_ite]
  all_goals split <;> simp_all

/-- C10: a delay wrapper constructed with a strictly negative duration
is accepted (the duration is stored as given) and behaves exactly like
one constructed with duration 0: the delayed operations perform no
sleep and delegate directly, because the sleep guard only fires on a
strictly positive stored delay. -/
theorem delay_wrappers_negative_delay (d : Int) (hd : d < 0)
    (conn : NetConn e a t) (len : Nat) (b : List Nat) :
    (NewReadDelayConn d conn).delay = d ∧
    (NewReadDelayConn d conn).Read len
      = (NewReadDelayConn 0 conn).Read len ∧
    (NewReadDelayConn d conn).Read len = (conn.read len, 0) ∧
    (NewWriteDelayConn d conn).Write b
      = (NewWriteDelayConn 0 conn).Write b ∧
    (NewWriteDelayConn d conn).Write b = (conn.write b, 0) ∧
    (NewDelayConn d conn).Read len = (NewDelayConn 0 conn).Read len ∧
    (NewDelayConn d conn).Read len = (conn.read len, 0) ∧
    (NewDelayConn d conn).Write b = (NewDelayConn 0 conn).Write b ∧
    (NewDelayConn d conn).Write b = (conn.write b, 0) := by
  have h : ¬ (0 : Int) < d := by omega
  refine ⟨rfl, ?_, ?_, ?_, ?_, ?_, ?_, ?_, ?_⟩ <;>
    simp [NewReadDelayConn, ReadDelayConn.Read, NewWriteDelayConn,
      WriteDelayConn.Write, NewDelayConn, DelayConn.Read,
      DelayConn.Write, h]

/-- Witness for C10 at duration -3 over a concrete connection. -/
theorem delay_wrappers_negative_delay_witness :
    ((-3 : Int) < 0) ∧
    ((NewReadDelayConn (-3) sampleConn).delay = -3 ∧
      (NewReadDelayConn (-3) sampleConn).Read 5
        = (NewReadDelayConn 0 sampleConn).Read 5 ∧
      (NewReadDelayConn (-3) sampleConn).Read 5 = (sampleConn.read 5, 0) ∧
      (NewWriteDelayConn (-3) sampleConn).Write [1, 2]
        = (NewWriteDelayConn 0 sampleConn).Write [1, 2] ∧
      (NewWriteDelayConn (-3) sampleConn).Write [1, 2]
        = (sampleConn.write [1, 2], 0) ∧
      (NewDelayConn (-3) sampleConn).Read 5
        = (NewDelayConn 0 sampleConn).Read 5 ∧
      (NewDelayConn (-3) sampleConn).Read 5 = (sampleConn.read 5, 0) ∧
      (NewDelayConn (-3) sampleConn).Write [1, 2]
        = (NewDelayConn 0 sampleConn).Write [1, 2] ∧
      (NewDelayConn (-3) sampleConn).Write [1, 2]
        = (sampleConn.write [1, 2], 0)) :=
  ⟨by decide,
    delay_wrappers_negative_delay (-3) (by decide) sampleConn 5 [1, 2]⟩

/-- C2: on a buffer of length L whose underlying one-byte writes all
succeed with (1, nil), a write on a wrapper built by
NewPerWriteDelayConn performs L sequential delegated one-byte write
attempts (one per byte, in order) and returns (L, nil), accumulating
the total bytes written across all attempts. -/
theorem perWriteDelayConn_write_all_ok [DecidableEq e] (d : Int)
    (w : s → List Nat → (Nat × Option e) × s) (st : s) (b : List Nat)
    (hok : allOneOk w st b = true) :
    ((NewPerWriteDelayConn d w).Write st b).n = b.length ∧
    ((NewPerWriteDelayConn d w).Write st b).err = none ∧
    ((NewPerWriteDelayConn d w).Write st b).calls
      = b.map (fun x => [x]) := by
  simp only [NewPerWriteDelayConn, PerWriteDelayConn.Write]
  induction b generalizing st with
  | nil => simp [perWriteLoop]
  | cons x rest ih =>
    simp only [allOneOk, Bool.and_eq_true, decide_eq_true_eq] at hok
    obtain ⟨h1, h2⟩ := hok
    rcases hw : w st [x] with ⟨⟨m, er⟩, st2⟩
    rw [hw] at h1 h2
    simp only [Prod.mk.injEq] at h1
    obtain ⟨hm, her⟩ := h1
    subst hm
    subst her
    have ihr := ih st2 h2
    simp only [perWriteLoop, hw]
    refine ⟨?_, ihr.2.1, ?_⟩
    · simp [ihr.1, Nat.add_comm]
    · simp [ihr.2.2]

/-- Witness for C2 with a concrete always-succeeding stateful writer,
delay 2 and the buffer [9, 8, 7]. -/
theorem perWriteDelayConn_write_all_ok_witness :
    allOneOk sampleWriter 0 [9, 8, 7] = true ∧
    (((NewPerWriteDelayConn 2 sampleWriter).Write 0 [9, 8, 7]).n = 3 ∧
      ((NewPerWriteDelayConn 2 sampleWriter).Write 0 [9, 8, 7]).err
        = none ∧
      ((NewPerWriteDelayConn 2 sampleWriter).Write 0 [9, 8, 7]).calls
        = [[9], [8], [7]]) :=
  ⟨by decide,
    perWriteDelayConn_write_all_ok 2 sampleWriter 0 [9, 8, 7] (by decide)⟩

/-- C3: if, during a write on a NewPerWriteDelayConn wrapper, every
one-byte attempt for the prefix b1 succeeds with (1, nil) and the next
attempt (the one for x) fails with error er, the call returns the bytes
accumulated so far (the prefix length plus whatever count the failing
attempt reported) together with that error, and performs no further
write attempts: the delegated calls stop at the failing one and the
rest of the buffer is never attempted. -/
theorem perWriteDelayConn_write_stops_on_error [DecidableEq e] (d : Int)
    (w : s → List Nat → (Nat × Option e) × s) (st : s)
    (b1 b2 : List Nat) (x : Nat) (er : e)
    (hpre : allOneOk w st b1 = true)
    (hfail : (w (stateAfter w st b1) [x]).1.2 = some er) :
    ((NewPerWriteDelayConn d w).Write st (b1 ++ x :: b2)).n
      = b1.length + (w (stateAfter w st b1) [x]).1.1 ∧
    ((NewPerWriteDelayConn d w).Write st (b1 ++ x :: b2)).err
      = some er ∧
    ((NewPerWriteDelayConn d w).Write st (b1 ++ x :: b2)).calls
      = b1.map (fun y => [y]) ++ [[x]] := by
  simp only [NewPerWriteDelayConn, PerWriteDelayConn.Write]
  induction b1 generalizing st with
  | nil =>
    simp only [stateAfter] at hfail
    rcases hw : w st [x] with ⟨⟨m, e2⟩, st2⟩
    rw [hw] at hfail
    simp only at hfail
    subst hfail
    simp [perWriteLoop, hw, stateAfter]
  | cons y rest ih =>
    simp only [allOneOk, Bool.and_eq_true, decide_eq_true_eq] at hpre
    obtain ⟨h1, h2⟩ := hpre
    rcases hw : w st [y] with ⟨⟨m, e2⟩, st2⟩
    rw [hw] at h1 h2
    simp only [Prod.mk.injEq] at h1
    obtain ⟨hm, her⟩ := h1
    subst hm
    subst her
    simp only [stateAfter, hw] at hfail
    have ihr := ih st2 h2 hfail
    simp only [List.cons_append, perWriteLoop, hw, stateAfter]
    refine ⟨?_, ihr.2.1, ?_⟩
    · have hn := ihr.1
      simp only [List.append_eq, List.length_cons]
      omega
    · simp [ihr.2.2]

/-- Witness for C3 with a concrete writer succeeding on its first
attempt and failing with error 7 on the second, over the buffer
[9] ++ 8 :: [5, 6]. -/
theorem perWriteDelayConn_write_stops_on_error_witness :
    (allOneOk failingWriter 0 [9] = true ∧
      (failingWriter (stateAfter failingWriter 0 [9]) [8]).1.2
        = some 7) ∧
    (((NewPerWriteDelayConn 2 failingWriter).Write 0
        ([9] ++ 8 :: [5, 6])).n
      = ([9] : List Nat).length
        + (failingWriter (stateAfter failingWriter 0 [9]) [8]).1.1 ∧
    ((NewPerWriteDelayConn 2 failingWriter).Write 0
        ([9] ++ 8 :: [5, 6])).err = some 7 ∧
    ((NewPerWriteDelayConn 2 failingWriter).Write 0
        ([9] ++ 8 :: [5, 6])).calls
      = ([9] : List Nat).map (fun y => [y]) ++ [[8]]) :=
  ⟨⟨by decide, by decide⟩,
    perWriteDelayConn_write_stops_on_error 2 failingWriter 0 [9] [5, 6]
      8 7 (by decide) (by decide)⟩
